import Mathlib

/-!
Shallow embedding of the pico-wifi-provisioning library
(src/src/PicoWiFiProvisioning.cpp, src/include/PicoWiFiProvisioning.h)
and proofs about its credential store, command processing, GATT
read/write handlers and provisioning state machine.

Conventions of the embedding:
* C strings (char pointers and NUL-terminated char buffers) are modelled
  by their string value, i.e. the characters before the first NUL; the
  claims under study only involve ASCII data, where one character is one
  byte, so String.take n models strncpy truncation to n bytes.
* A nullable char pointer parameter is modelled as Option String, with
  none standing for NULL.
* Member mutation is modelled by explicit state passing: each member
  function becomes a function from the relevant state to the new state,
  paired with a record of the externally visible requests it issued
  (WiFi.begin, WiFi.disconnect, BLE disconnect, advertising stop,
  registered callbacks fired).  Serial prints are side-effect free for
  the state machine and are not modelled.
* millis() arithmetic is on unsigned 32-bit values; elapsed time is
  computed modulo 2^32 as the C subtraction does.
-/

namespace PicoProv

/-- MAX_WIFI_NETWORKS from PicoWiFiProvisioning.h line 22. -/
def MAX_WIFI_NETWORKS : Nat := 5

/-- MAX_SSID_LENGTH from PicoWiFiProvisioning.h line 24. -/
def MAX_SSID_LENGTH : Nat := 32

/-- MAX_PASSWORD_LENGTH from PicoWiFiProvisioning.h line 25. -/
def MAX_PASSWORD_LENGTH : Nat := 64

/-- WIFI_CONNECT_TIMEOUT_MS from PicoWiFiProvisioning.h line 133. -/
def WIFI_CONNECT_TIMEOUT_MS : Nat := 15000

/-- The PicoWiFiProvisioningStatus enum from PicoWiFiProvisioning.h. -/
inductive ProvStatus where
  | PROVISION_IDLE
  | PROVISION_STARTED
  | PROVISION_COMPLETE
  | PROVISION_FAILED
  | PROVISION_CONNECTING
  | PROVISION_CONNECTED
deriving DecidableEq, Repr

open ProvStatus

/-- The wl_status_t value sampled from WiFi.status(); the constructors
named here are the ones the library inspects. -/
inductive WlStatus where
  | WL_NO_SHIELD
  | WL_IDLE_STATUS
  | WL_NO_SSID_AVAIL
  | WL_SCAN_COMPLETED
  | WL_CONNECTED
  | WL_CONNECT_FAILED
  | WL_CONNECTION_LOST
  | WL_DISCONNECTED
deriving DecidableEq, Repr

open WlStatus

/-- WiFiNetworkConfig from PicoWiFiProvisioning.h: one stored network.
The char arrays are modelled by their string values; the writes in the
source keep the terminating NUL in place, so the value determines the
buffer contents up to unobservable bytes after the first NUL. -/
structure WiFiNetworkConfig where
  ssid : String
  password : String
  enabled : Bool
deriving DecidableEq, Repr

/-- Command byte CMD_SAVE_NETWORK. -/
def CMD_SAVE_NETWORK : Nat := 0x01
/-- Command byte CMD_CONNECT. -/
def CMD_CONNECT : Nat := 0x02
/-- Command byte CMD_CLEAR_NETWORKS. -/
def CMD_CLEAR_NETWORKS : Nat := 0x03
/-- Command byte CMD_GET_STATUS. -/
def CMD_GET_STATUS : Nat := 0x04
/-- Command byte CMD_DISCONNECT. -/
def CMD_DISCONNECT : Nat := 0x05

/-- State of the PicoWiFiProvisioningClass members that the modelled
member functions touch.  receivedSSID and receivedPassword are the
string values of the staging buffers; bleConnected models
whether the connected-device pointer is non-null; pairingSubscribed
models the BLENotify subscription state of the pairing characteristic;
the three callback flags model whether the corresponding function
pointer is registered. -/
structure ProvState where
  status : ProvStatus
  networks : List WiFiNetworkConfig
  receivedSSID : String
  receivedPassword : String
  connectionStartTime : Nat
  bleConnected : Bool
  pairingSubscribed : Bool
  statusCallbackSet : Bool
  wifiStatusCallbackSet : Bool
  bleCallbackSet : Bool
deriving DecidableEq, Repr

/-- Externally visible requests issued during one modelled call:
statusCbs lists the values passed to the registered status callback;
wifiStatusCbs those passed to the WiFi status callback; bleCbs those
passed to the BLE connection-state callback; wifiBegin lists the
(ssid, password) pairs passed to WiFi.begin; wifiDisconnects counts
WiFi.disconnect() calls; bleDisconnects counts BTstack.bleDisconnect
calls; stopAdvertising counts BTstack.stopAdvertising calls;
pairNotify lists the pairing-status byte values pushed via
BLENotify.notify. -/
structure Effects where
  statusCbs : List ProvStatus
  wifiStatusCbs : List WlStatus
  bleCbs : List Bool
  wifiBegin : List (String × String)
  wifiDisconnects : Nat
  bleDisconnects : Nat
  stopAdvertising : Nat
  pairNotify : List Nat
deriving DecidableEq, Repr

/-- The empty effect record: no request issued. -/
def Effects.none : Effects := ⟨[], [], [], [], 0, 0, 0, []⟩

/-- Sequencing of effect records (requests of the first call followed
by requests of the second). -/
def Effects.seq (a b : Effects) : Effects :=
  ⟨a.statusCbs ++ b.statusCbs, a.wifiStatusCbs ++ b.wifiStatusCbs,
   a.bleCbs ++ b.bleCbs, a.wifiBegin ++ b.wifiBegin,
   a.wifiDisconnects + b.wifiDisconnects,
   a.bleDisconnects + b.bleDisconnects,
   a.stopAdvertising + b.stopAdvertising,
   a.pairNotify ++ b.pairNotify⟩

/-- strncpy(dst, src, n) into a zero-terminated buffer of size n+1
whose byte n is invariantly NUL: the stored string value is the first
n characters of src.  Used for the MAX_SSID_LENGTH and
MAX_PASSWORD_LENGTH truncations in the source. -/
def strTrunc (s : String) (n : Nat) : String := s.take n

/-- The search loop of saveNetwork (PicoWiFiProvisioning.cpp lines
180-188) followed by the in-place update of lines 189-193: the first
entry whose ssid compares equal gets its password overwritten
(truncated to MAX_PASSWORD_LENGTH by strncpy) and enabled set to true;
all other entries are untouched. -/
def overwriteFirst : List WiFiNetworkConfig → String → String → List WiFiNetworkConfig
  | [], _, _ => []
  | n :: rest, ssid, password =>
    if n.ssid = ssid then
      { n with password := strTrunc password MAX_PASSWORD_LENGTH, enabled := true } :: rest
    else
      n :: overwriteFirst rest ssid password

/-- PicoWiFiProvisioningClass::saveNetwork (PicoWiFiProvisioning.cpp
lines 174-206).  ssid is the nullable char pointer argument (none =
NULL).  flashOk abstracts the return value of saveNetworksToFlash,
which writes the list to the external LittleFS collaborator and whose
success does not alter the in-memory list.  Returns the C return value
paired with the new in-memory network list. -/
def saveNetwork (flashOk : Bool) (nets : List WiFiNetworkConfig)
    (ssid : Option String) (password : String) : Bool × List WiFiNetworkConfig :=
  match ssid with
  | none => (false, nets)
  | some s =>
    if s.length = 0 then
      (false, nets)
    else if nets.any (fun n => n.ssid = s) then
      (flashOk, overwriteFirst nets s password)
    else if nets.length < MAX_WIFI_NETWORKS then
      (flashOk, nets ++ [⟨strTrunc s MAX_SSID_LENGTH, strTrunc password MAX_PASSWORD_LENGTH, true⟩])
    else
      (false, nets)

/-- PicoWiFiProvisioningClass::setStatus (PicoWiFiProvisioning.cpp
lines 300-322): update the status member and fire the registered
status callback only when the value changes. -/
def setStatus (st : ProvState) (newStatus : ProvStatus) : ProvState × Effects :=
  if st.status ≠ newStatus then
    ({ st with status := newStatus },
     { Effects.none with statusCbs := if st.statusCallbackSet then [newStatus] else [] })
  else
    (st, Effects.none)

/-- PicoWiFiProvisioningClass::connectToNetwork (PicoWiFiProvisioning.cpp
lines 238-271).  wifi is the value WiFi.status() returns during the
call; now is the value of millis().  An empty (or NULL, represented by
the empty string since both take the same early-return branch) ssid
aborts with no state change and no request.  Otherwise the function
sets PROVISION_CONNECTING, stops advertising, requests a BLE
disconnect when a device is connected, requests a WiFi disconnect when
the interface is neither disconnected nor idle, issues WiFi.begin and
records the start time. -/
def connectToNetwork (st : ProvState) (ssid password : String)
    (wifi : WlStatus) (now : Nat) : ProvState × Effects :=
  if ssid = "" then
    (st, Effects.none)
  else
    let (st1, e1) := setStatus st PROVISION_CONNECTING
    let e2 : Effects := { Effects.none with stopAdvertising := 1 }
    let e3 : Effects :=
      if st1.bleConnected then { Effects.none with bleDisconnects := 1 } else Effects.none
    let e4 : Effects :=
      if wifi ≠ WL_DISCONNECTED ∧ wifi ≠ WL_IDLE_STATUS then
        { Effects.none with wifiDisconnects := 1 }
      else Effects.none
    let e5 : Effects := { Effects.none with wifiBegin := [(ssid, password)] }
    ({ st1 with connectionStartTime := now },
     (((e1.seq e2).seq e3).seq e4).seq e5)

/-- The scan of the for loop in connectToStoredNetworks: the first
stored entry with enabled set, in insertion order. -/
def firstEnabled : List WiFiNetworkConfig → Option WiFiNetworkConfig
  | [] => Option.none
  | n :: rest => if n.enabled then some n else firstEnabled rest

/-- PicoWiFiProvisioningClass::connectToStoredNetworks
(PicoWiFiProvisioning.cpp lines 208-236): refuse while already
connecting or connected, refuse on an empty store, otherwise attempt
the first enabled entry via connectToNetwork and report whether the
status check after the call observes PROVISION_CONNECTING. -/
def connectToStoredNetworks (st : ProvState) (wifi : WlStatus) (now : Nat) :
    Bool × ProvState × Effects :=
  if st.status = PROVISION_CONNECTING ∨ st.status = PROVISION_CONNECTED then
    (false, st, Effects.none)
  else if st.networks.length = 0 then
    (false, st, Effects.none)
  else
    match firstEnabled st.networks with
    | Option.none => (false, st, Effects.none)
    | some n =>
      let (st1, e1) := connectToNetwork st n.ssid n.password wifi now
      (decide (st1.status = PROVISION_CONNECTING), st1, e1)

/-- PicoWiFiProvisioningClass::clearNetworks (PicoWiFiProvisioning.cpp
lines 273-287): zero every slot, reset the count, remove the flash
artifact (an external LittleFS request, not part of this state), and
return true. -/
def clearNetworks (st : ProvState) : Bool × ProvState :=
  (true, { st with networks := [] })

/-- PicoWiFiProvisioningClass::processCommand (PicoWiFiProvisioning.cpp
lines 639-684).  command is the received command byte; flashOk
abstracts the flash-write outcome inside saveNetwork; wifi and now are
the WiFi.status() and millis() samples for a resulting connection
attempt. -/
def processCommand (st : ProvState) (command : Nat) (flashOk : Bool)
    (wifi : WlStatus) (now : Nat) : ProvState × Effects :=
  if command = CMD_SAVE_NETWORK then
    if st.receivedSSID ≠ "" then
      let r := saveNetwork flashOk st.networks (some st.receivedSSID) st.receivedPassword
      ({ st with networks := r.2, receivedSSID := "", receivedPassword := "" },
       Effects.none)
    else
      (st, Effects.none)
  else if command = CMD_CONNECT then
    if st.receivedSSID ≠ "" then
      connectToNetwork st st.receivedSSID st.receivedPassword wifi now
    else
      let r := connectToStoredNetworks st wifi now
      (r.2.1, r.2.2)
  else if command = CMD_CLEAR_NETWORKS then
    ((clearNetworks st).2, Effects.none)
  else if command = CMD_DISCONNECT then
    let e1 : Effects := { Effects.none with wifiDisconnects := 1 }
    let (st1, e2) := setStatus st PROVISION_IDLE
    (st1, e1.seq e2)
  else
    (st, Effects.none)

/-- One entry of the parsed JSON "networks" array as ArduinoJson
presents it to loadNetworksFromFlash: each field is absent (none) or
present with its value. -/
structure JsonNetworkEntry where
  ssid : Option String
  password : Option String
  enabled : Option Bool
deriving DecidableEq, Repr

/-- The stored artifact as loadNetworksFromFlash observes it through
the LittleFS and ArduinoJson collaborators: missing file, file that
fails to open, or file contents with a byte size and a parse outcome
(none when deserializeJson reports an error). -/
inductive FlashFile where
  | absent
  | unreadable
  | content (size : Nat) (parsed : Option (List JsonNetworkEntry))
deriving DecidableEq, Repr

/-- The entry-loading loop of loadNetworksFromFlash
(PicoWiFiProvisioning.cpp lines 568-589): stop at capacity, skip
entries with a missing or empty ssid, truncate with strncpy, default a
missing password to the empty string and a missing enabled flag to
true.  count is the running value of the networkCount member. -/
def loadEntries : List JsonNetworkEntry → Nat → List WiFiNetworkConfig
  | [], _ => []
  | e :: rest, count =>
    if MAX_WIFI_NETWORKS ≤ count then
      []
    else
      match e.ssid with
      | some s =>
        if 0 < s.length then
          ⟨strTrunc s MAX_SSID_LENGTH,
           strTrunc (e.password.getD "") MAX_PASSWORD_LENGTH,
           e.enabled.getD true⟩ :: loadEntries rest (count + 1)
        else
          loadEntries rest count
      | Option.none => loadEntries rest count

/-- PicoWiFiProvisioningClass::loadNetworksFromFlash
(PicoWiFiProvisioning.cpp lines 537-594).  prev is the in-memory list
before the call (the member is only reset after a successful parse).
Returns the C return value paired with the in-memory list after the
call. -/
def loadNetworksFromFlash (prev : List WiFiNetworkConfig) (file : FlashFile) :
    Bool × List WiFiNetworkConfig :=
  match file with
  | FlashFile.absent => (false, prev)
  | FlashFile.unreadable => (false, prev)
  | FlashFile.content size parsed =>
    if 2048 < size then
      (false, prev)
    else
      match parsed with
      | Option.none => (false, prev)
      | some entries => (true, loadEntries entries 0)

/-- Elapsed milliseconds as the C expression currentTime -
connectionStartTime computes it on unsigned 32-bit values. -/
def elapsedMs (now start : Nat) : Nat :=
  (now % 4294967296 + (4294967296 - start % 4294967296)) % 4294967296

/-- PicoWiFiProvisioningClass::loop (PicoWiFiProvisioning.cpp lines
105-161), minus the BTstack.loop and BLENotify.update collaborator
calls, which touch none of the modelled members.  lastReportedToApp
and internalLast are the two function-static wl_status_t samples;
wifi is the WiFi.status() sample and now the millis() sample of this
tick.  Returns the new state, the two updated static samples, and the
requests issued. -/
def loopTick (st : ProvState) (lastReportedToApp internalLast : WlStatus)
    (wifi : WlStatus) (now : Nat) : ProvState × WlStatus × WlStatus × Effects :=
  let (st1, e1) :=
    if st.status = PROVISION_CONNECTING then
      if wifi = WL_CONNECTED then
        setStatus st PROVISION_CONNECTED
      else if wifi = WL_CONNECT_FAILED ∨ wifi = WL_NO_SSID_AVAIL then
        setStatus st PROVISION_FAILED
      else if WIFI_CONNECT_TIMEOUT_MS < elapsedMs now st.connectionStartTime then
        let r := setStatus st PROVISION_FAILED
        (r.1, r.2.seq { Effects.none with wifiDisconnects := 1 })
      else
        (st, Effects.none)
    else
      (st, Effects.none)
  let (last1, e2) :=
    if wifi ≠ lastReportedToApp then
      (wifi, { Effects.none with
               wifiStatusCbs := if st1.wifiStatusCallbackSet then [wifi] else [] })
    else
      (lastReportedToApp, Effects.none)
  let (st2, internal1, e3) :=
    if wifi ≠ internalLast then
      if (wifi = WL_DISCONNECTED ∨ wifi = WL_CONNECTION_LOST) ∧
          st1.status = PROVISION_CONNECTED then
        let r := setStatus st1 PROVISION_IDLE
        (r.1, wifi, r.2)
      else
        (st1, wifi, Effects.none)
    else
      (st1, internalLast, Effects.none)
  (st2, last1, internal1, (e1.seq e2).seq e3)

/-- PicoWiFiProvisioningClass::handleDeviceConnected
(PicoWiFiProvisioning.cpp lines 389-414).  ok is whether the BLEStatus
argument equals BLE_STATUS_OK.  On success the device pointer is
recorded and the BLE connection-state callback fires with true; on
failure the pointer is cleared and the callback fires with false.  No
branch assigns the provisioning status member. -/
def handleDeviceConnected (st : ProvState) (ok : Bool) : ProvState × Effects :=
  if ok then
    ({ st with bleConnected := true },
     { Effects.none with bleCbs := if st.bleCallbackSet then [true] else [] })
  else
    ({ st with bleConnected := false },
     { Effects.none with bleCbs := if st.bleCallbackSet then [false] else [] })

/-- The GATT characteristic value handles assigned during
setupBLEService; their concrete values come from the external BLENotify
collaborator. -/
structure CharHandles where
  ssidH : Nat
  passwordH : Nat
  commandH : Nat
  pairingStatusH : Nat
deriving DecidableEq, Repr

/-- The C-string value of a byte buffer: the bytes before the first
NUL, decoded as characters. -/
def bufToCStr (buf : List Nat) : String :=
  String.mk ((buf.takeWhile (fun b => b ≠ 0)).map Char.ofNat)

/-- The bytes of a string value (ASCII data, one byte per character). -/
def strBytes (s : String) : List Nat :=
  s.data.map Char.toNat

/-- The 33-byte receivedSSID buffer after the ssid branch of
handleGattWrite (PicoWiFiProvisioning.cpp lines 430-437): memset to
zero, then memcpy of min(buffer_size, MAX_SSID_LENGTH) bytes of the
written payload. -/
def ssidBufAfterWrite (buf : List Nat) : List Nat :=
  let copyLen := min buf.length MAX_SSID_LENGTH
  buf.take copyLen ++ List.replicate (MAX_SSID_LENGTH + 1 - copyLen) 0

/-- The 65-byte receivedPassword buffer after the password branch of
handleGattWrite (PicoWiFiProvisioning.cpp lines 438-444): memset to
zero, then memcpy of min(buffer_size, MAX_PASSWORD_LENGTH) bytes. -/
def passwordBufAfterWrite (buf : List Nat) : List Nat :=
  let copyLen := min buf.length MAX_PASSWORD_LENGTH
  buf.take copyLen ++ List.replicate (MAX_PASSWORD_LENGTH + 1 - copyLen) 0

/-- PicoWiFiProvisioningClass::updatePairingStatusCharacteristic
(PicoWiFiProvisioning.cpp lines 163-172): push the one-byte pairing
status via BLENotify.notify when the characteristic is subscribed. -/
def updatePairingStatusCharacteristic (st : ProvState) (isPaired : Bool) : Effects :=
  let value : Nat := if isPaired then 1 else 0
  if st.pairingSubscribed then
    { Effects.none with pairNotify := [value] }
  else
    Effects.none

/-- PicoWiFiProvisioningClass::handleGattWrite (PicoWiFiProvisioning.cpp
lines 428-477).  h holds the characteristic value handles; cid is the
characteristic_id of the write and buf the written payload bytes.
pairingComplete and encrypted are the answers of the BLESecure
collaborator queries made in the subscription branch.  The first
if-chain dispatches on the handle (a command write needs at least one
byte); the second block treats any 2-byte write whose handle is one
above the pairing-status value handle as a CCCD write, with uint16
wraparound on the handle subtraction.  The C function always returns
0, included as the last component. -/
def handleGattWrite (h : CharHandles) (st : ProvState)
    (flashOk pairingComplete encrypted : Bool) (wifi : WlStatus) (now : Nat)
    (cid : Nat) (buf : List Nat) : ProvState × Effects × Nat :=
  let (st1, e1) :=
    if cid = h.ssidH then
      ({ st with receivedSSID := bufToCStr (ssidBufAfterWrite buf) }, Effects.none)
    else if cid = h.passwordH then
      ({ st with receivedPassword := bufToCStr (passwordBufAfterWrite buf) }, Effects.none)
    else if cid = h.commandH ∧ 1 ≤ buf.length then
      processCommand st (buf.headD 0) flashOk wifi now
    else
      (st, Effects.none)
  let (st2, e2) :=
    if buf.length = 2 then
      let b0 := buf.headD 0
      let b1 := (buf.drop 1).headD 0
      let charValueHandle := (cid + 65535) % 65536
      let cccdValue := Nat.lor (b1 * 256) b0
      if charValueHandle = h.pairingStatusH then
        if cccdValue = 1 then
          let sta := { st1 with pairingSubscribed := true }
          let isPaired := st1.bleConnected && pairingComplete && encrypted
          (sta, updatePairingStatusCharacteristic sta isPaired)
        else if cccdValue = 0 then
          ({ st1 with pairingSubscribed := false }, Effects.none)
        else
          (st1, Effects.none)
      else
        (st1, Effects.none)
    else
      (st1, Effects.none)
  (st2, e1.seq e2, 0)

/-- PicoWiFiProvisioningClass::handleGattRead (PicoWiFiProvisioning.cpp
lines 479-535).  bufPresent is whether the destination pointer is
non-NULL and bufSize the offered buffer size; pairingComplete and
encrypted are the BLESecure collaborator answers.  The C function
assigns no member, so the state is returned unchanged; the second
component is the returned length and the third the bytes written into
the destination buffer. -/
def handleGattRead (h : CharHandles) (st : ProvState)
    (pairingComplete encrypted : Bool) (cid : Nat)
    (bufPresent : Bool) (bufSize : Nat) : ProvState × Nat × List Nat :=
  if cid = h.ssidH then
    let len := st.receivedSSID.length
    if bufPresent = false then
      (st, len, [])
    else if bufSize < len then
      (st, 0, [])
    else
      (st, len, strBytes st.receivedSSID)
  else if cid = h.pairingStatusH then
    let value : Nat := if st.bleConnected && pairingComplete && encrypted then 1 else 0
    if bufPresent = false then
      (st, 1, [])
    else if bufSize < 1 then
      (st, 0, [])
    else
      (st, 1, [value])
  else
    (st, 0, [])

/-! Helper lemmas shared by the claim theorems. -/

/-- Helper: a non-empty ssid makes connectToNetwork set status to
PROVISION_CONNECTING, record the start time, leave every other member
unchanged, and issue exactly one WiFi.begin with the given pair. -/
theorem connectToNetwork_run (st : ProvState) (ssid password : String)
    (wifi : WlStatus) (now : Nat) (h : ssid ≠ "") :
    (connectToNetwork st ssid password wifi now).1 =
      { st with status := PROVISION_CONNECTING, connectionStartTime := now } ∧
    (connectToNetwork st ssid password wifi now).2.wifiBegin = [(ssid, password)] := by
  obtain ⟨s0, nets, rs, rp, t, ble, ps, c1, c2, c3⟩ := st
  by_cases h1 : s0 = PROVISION_CONNECTING <;>
    by_cases h2 : ble = true <;>
      by_cases h3 : wifi ≠ WL_DISCONNECTED ∧ wifi ≠ WL_IDLE_STATUS <;>
        simp [connectToNetwork, setStatus, Effects.seq, Effects.none, h, h1, h2, h3]

/-- Helper: a list with a first enabled entry is not empty. -/
theorem firstEnabled_ne_nil (l : List WiFiNetworkConfig) (n : WiFiNetworkConfig)
    (h : firstEnabled l = some n) : l.length ≠ 0 := by
  cases l with
  | nil => simp [firstEnabled] at h
  | cons a rest => simp

/-- Helper: when some entry of the list has the given ssid, the
overwriteFirst scan updates exactly the first such entry in place. -/
theorem overwriteFirst_eq_set (nets : List WiFiNetworkConfig) (ssid password : String)
    (hmem : ∃ n ∈ nets, n.ssid = ssid) :
    ∃ i, ∃ hi : i < nets.length,
      (nets.get ⟨i, hi⟩).ssid = ssid ∧
      overwriteFirst nets ssid password =
        nets.set i { nets.get ⟨i, hi⟩ with
                     password := strTrunc password MAX_PASSWORD_LENGTH,
                     enabled := true } := by
  induction nets with
  | nil => simp at hmem
  | cons a rest ih =>
    by_cases ha : a.ssid = ssid
    · exact ⟨0, by simp, by simpa using ha, by simp [overwriteFirst, ha]⟩
    · have hrest : ∃ n ∈ rest, n.ssid = ssid := by
        rcases hmem with ⟨n, hn, hns⟩
        rcases List.mem_cons.mp hn with h1 | h1
        · exact absurd (h1 ▸ hns) ha
        · exact ⟨n, h1, hns⟩
      rcases ih hrest with ⟨i, hi, hs, heq⟩
      exact ⟨i + 1, by simpa using hi, by simpa using hs, by simp [overwriteFirst, ha, heq]⟩

/-- A sample idle state with all callbacks registered. -/
def idleStateEx : ProvState :=
  ⟨PROVISION_IDLE, [], "", "", 0, false, false, true, true, true⟩

/-- A sample state in the middle of a connection attempt. -/
def connectingStateEx : ProvState :=
  ⟨PROVISION_CONNECTING, [], "", "", 0, false, false, true, true, true⟩

/-- A sample idle state with a staged credential. -/
def stagedStateEx : ProvState :=
  ⟨PROVISION_IDLE, [], "Home", "secret123", 0, false, false, true, true, true⟩

/-- C4: setStatus fires the registered status callback exactly once
when the new state differs from the current one and not at all when it
is equal; consequently the second of two identical requests never
fires it, so two identical requests fire it at most once. -/
theorem setStatus_callback_on_change (st : ProvState) (s : ProvStatus)
    (hreg : st.statusCallbackSet = true) :
    ((setStatus st s).2.statusCbs.length = if st.status = s then 0 else 1) ∧
    ((setStatus (setStatus st s).1 s).2.statusCbs.length = 0) ∧
    ((setStatus st s).2.statusCbs.length +
       (setStatus (setStatus st s).1 s).2.statusCbs.length ≤ 1) := by
  by_cases h : st.status = s <;>
    simp [setStatus, Effects.none, h, hreg]

/-- C4 witness: setting Connecting from Idle fires the callback once,
and repeating the same request fires nothing more. -/
theorem setStatus_callback_on_change_witness :
    ((setStatus idleStateEx PROVISION_CONNECTING).2.statusCbs.length = 1) ∧
    ((setStatus (setStatus idleStateEx PROVISION_CONNECTING).1
        PROVISION_CONNECTING).2.statusCbs.length = 0) := by
  have h := setStatus_callback_on_change idleStateEx PROVISION_CONNECTING (by decide)
  exact ⟨by simpa using h.1, h.2.1⟩

/-- C6 counterexample: a successful device-connected event in the Idle
state leaves the provisioning status at PROVISION_IDLE; it does not
transition to PROVISION_STARTED as the claim states. -/
theorem deviceConnected_idle_stays_idle :
    (handleDeviceConnected idleStateEx true).1.status = PROVISION_IDLE ∧
    (handleDeviceConnected idleStateEx true).1.status ≠ PROVISION_STARTED := by
  decide

/-- C6 amended: handleDeviceConnected never changes the provisioning
status (no branch assigns it; in particular Idle stays Idle and
PROVISION_STARTED is never entered); a success event records the peer
reference and fires the BLE connection-state callback with true. -/
theorem deviceConnected_preserves_status (st : ProvState) (ok : Bool) :
    (handleDeviceConnected st ok).1.status = st.status ∧
    (handleDeviceConnected st ok).1.bleConnected = ok ∧
    (handleDeviceConnected st ok).2.bleCbs =
      (if st.bleCallbackSet then [ok] else []) := by
  cases ok <;> by_cases h : st.bleCallbackSet <;>
    simp [handleDeviceConnected, Effects.none, h]

/-- C5 counterexample: with the state already PROVISION_CONNECTING,
connectToNetwork still starts a fresh attempt (it issues WiFi.begin
with the requested credentials) instead of rejecting the call. -/
theorem connectToNetwork_starts_while_connecting :
    connectingStateEx.status = PROVISION_CONNECTING ∧
    (connectToNetwork connectingStateEx "MyNet" "pw" WL_IDLE_STATUS 42).2.wifiBegin =
      [("MyNet", "pw")] := by
  decide

/-- C5 amended: only connectToStoredNetworks rejects a new attempt
while one is pending; it returns false with no state change and no
request when the state is Connecting.  connectToNetwork performs no
busy check: with a non-empty ssid it issues WiFi.begin even while the
state is Connecting, and the Connect command with a staged name does
the same through it. -/
theorem busy_rejection_scope (st : ProvState) (ssid password : String)
    (flashOk : Bool) (wifi : WlStatus) (now : Nat)
    (hconn : st.status = PROVISION_CONNECTING) :
    (connectToStoredNetworks st wifi now = (false, st, Effects.none)) ∧
    (ssid ≠ "" →
      (connectToNetwork st ssid password wifi now).2.wifiBegin = [(ssid, password)]) ∧
    (st.receivedSSID ≠ "" →
      (processCommand st CMD_CONNECT flashOk wifi now).2.wifiBegin =
        [(st.receivedSSID, st.receivedPassword)]) := by
  refine ⟨by simp [connectToStoredNetworks, hconn], ?_, ?_⟩
  · intro h
    exact (connectToNetwork_run st ssid password wifi now h).2
  · intro h
    simp only [processCommand, CMD_CONNECT, CMD_SAVE_NETWORK]
    norm_num
    simp [h, (connectToNetwork_run st st.receivedSSID st.receivedPassword wifi now h).2]

/-- C5 amended witness: in a concrete Connecting state the stored-network
entry point rejects, while the direct entry point starts an attempt. -/
theorem busy_rejection_scope_witness :
    (connectToStoredNetworks connectingStateEx WL_IDLE_STATUS 7 =
      (false, connectingStateEx, Effects.none)) ∧
    ((connectToNetwork connectingStateEx "Net" "pw" WL_IDLE_STATUS 7).2.wifiBegin =
      [("Net", "pw")]) := by
  have h := busy_rejection_scope connectingStateEx "Net" "pw" true WL_IDLE_STATUS 7 (by decide)
  exact ⟨h.1, h.2.1 (by decide)⟩

/-- C7 counterexample: processing the Connect command with a staged
name does not clear the PendingCredential buffer; the staged name and
passphrase survive the command. -/
theorem connect_command_keeps_pending :
    stagedStateEx.receivedSSID = "Home" ∧
    (processCommand stagedStateEx CMD_CONNECT true WL_IDLE_STATUS 0).1.receivedSSID = "Home" ∧
    (processCommand stagedStateEx CMD_CONNECT true WL_IDLE_STATUS 0).1.receivedPassword =
      "secret123" := by
  decide

/-- C7 amended: the SaveNetwork command consumes the staged credential
and clears both staged buffers afterwards, and with an empty staged
name it does nothing at all (no error, no store call, no request); the
Connect command, however, leaves the staged buffers unchanged after
using them. -/
theorem pendingCredential_clearing (st : ProvState) (flashOk : Bool)
    (wifi : WlStatus) (now : Nat) :
    (st.receivedSSID ≠ "" →
      (processCommand st CMD_SAVE_NETWORK flashOk wifi now).1.receivedSSID = "" ∧
      (processCommand st CMD_SAVE_NETWORK flashOk wifi now).1.receivedPassword = "") ∧
    (st.receivedSSID = "" →
      processCommand st CMD_SAVE_NETWORK flashOk wifi now = (st, Effects.none)) ∧
    (st.receivedSSID ≠ "" →
      (processCommand st CMD_CONNECT flashOk wifi now).1.receivedSSID = st.receivedSSID ∧
      (processCommand st CMD_CONNECT flashOk wifi now).1.receivedPassword =
        st.receivedPassword) := by
  refine ⟨?_, ?_, ?_⟩
  · intro h
    simp [processCommand, CMD_SAVE_NETWORK, h]
  · intro h
    simp [processCommand, CMD_SAVE_NETWORK, h]
  · intro h
    simp only [processCommand, CMD_CONNECT, CMD_SAVE_NETWORK]
    norm_num
    have hr := (connectToNetwork_run st st.receivedSSID st.receivedPassword wifi now h).1
    simp [h, hr]

/-- C7 amended witness: a concrete staged credential is cleared by
SaveNetwork, untouched by Connect, and an empty staged name makes
SaveNetwork a no-op. -/
theorem pendingCredential_clearing_witness :
    ((processCommand stagedStateEx CMD_SAVE_NETWORK true WL_IDLE_STATUS 0).1.receivedSSID = "") ∧
    (processCommand idleStateEx CMD_SAVE_NETWORK true WL_IDLE_STATUS 0 =
      (idleStateEx, Effects.none)) ∧
    ((processCommand stagedStateEx CMD_CONNECT true WL_IDLE_STATUS 0).1.receivedSSID = "Home") := by
  have h1 := pendingCredential_clearing stagedStateEx true WL_IDLE_STATUS 0
  have h2 := pendingCredential_clearing idleStateEx true WL_IDLE_STATUS 0
  exact ⟨(h1.1 (by decide)).1, h2.2.1 (by decide), by
    have := (h1.2.2 (by decide)).1
    simpa using this⟩

/-- Helper: a string other than the empty string has nonzero length,
mirroring the strlen check in the source. -/
theorem str_length_ne_zero (s : String) (h : s ≠ "") : s.length ≠ 0 := by
  intro hh
  apply h
  cases s with
  | mk data =>
    have hdata : data = [] := List.length_eq_zero.mp (by simpa [String.length] using hh)
    simp [hdata]

/-- C1: the credential-store save operation overwrites the passphrase
and re-enables the entry in place when the name already exists,
leaving the store size unchanged; it fails and leaves the store
unchanged when the name is new and the store already holds
MAX_WIFI_NETWORKS (= 5) entries; and it fails when the name is NULL or
empty. -/
theorem saveNetwork_contract (flashOk : Bool) (nets : List WiFiNetworkConfig)
    (ssid password : String) :
    (saveNetwork flashOk nets Option.none password = (false, nets)) ∧
    (saveNetwork flashOk nets (some "") password = (false, nets)) ∧
    (ssid ≠ "" → (∃ n ∈ nets, n.ssid = ssid) →
      (saveNetwork flashOk nets (some ssid) password).2.length = nets.length ∧
      ∃ i, ∃ hi : i < nets.length,
        (nets.get ⟨i, hi⟩).ssid = ssid ∧
        (saveNetwork flashOk nets (some ssid) password).2 =
          nets.set i { nets.get ⟨i, hi⟩ with
                       password := strTrunc password MAX_PASSWORD_LENGTH,
                       enabled := true }) ∧
    (ssid ≠ "" → (∀ n ∈ nets, n.ssid ≠ ssid) → nets.length = MAX_WIFI_NETWORKS →
      saveNetwork flashOk nets (some ssid) password = (false, nets)) := by
  refine ⟨rfl, by simp [saveNetwork], ?_, ?_⟩
  · intro hne hmem
    have hlen : ssid.length ≠ 0 := str_length_ne_zero ssid hne
    have hany : nets.any (fun n => n.ssid = ssid) = true := by
      rcases hmem with ⟨n, hn, hns⟩
      exact List.any_eq_true.mpr ⟨n, hn, by simpa using hns⟩
    rcases overwriteFirst_eq_set nets ssid password hmem with ⟨i, hi, hs, heq⟩
    have hres : (saveNetwork flashOk nets (some ssid) password).2 =
        overwriteFirst nets ssid password := by
      simp [saveNetwork, hlen, hany]
    refine ⟨?_, i, hi, hs, by rw [hres, heq]⟩
    rw [hres, heq]
    simp
  · intro hne hnone hfull
    have hlen : ssid.length ≠ 0 := str_length_ne_zero ssid hne
    have hany : nets.any (fun n => n.ssid = ssid) = false := by
      rw [List.any_eq_false]
      intro n hn
      simpa using hnone n hn
    simp [saveNetwork, hlen, hany, hfull, MAX_WIFI_NETWORKS]

/-- A full store of five enabled networks. -/
def fullStoreEx : List WiFiNetworkConfig :=
  [⟨"A", "pa", true⟩, ⟨"B", "pb", true⟩, ⟨"C", "pc", true⟩,
   ⟨"D", "pd", true⟩, ⟨"E", "pe", true⟩]

/-- C1 witness: overwriting an existing name keeps the size at one,
and saving a sixth name into a full store fails and leaves the store
unchanged. -/
theorem saveNetwork_contract_witness :
    ((saveNetwork true [⟨"Home", "old", false⟩] (some "Home") "secret123").2.length = 1) ∧
    (saveNetwork true fullStoreEx (some "F") "pf" = (false, fullStoreEx)) := by
  have h1 := (saveNetwork_contract true [⟨"Home", "old", false⟩] "Home" "secret123").2.2.1
    (by decide) ⟨⟨"Home", "old", false⟩, by simp, rfl⟩
  have h2 := (saveNetwork_contract true fullStoreEx "F" "pf").2.2.2
    (by decide) (by decide) (by decide)
  exact ⟨by simpa using h1.1, h2⟩

/-- C2: the Connect command uses the staged credential when a name is
staged; otherwise it falls back to the stored list, attempting the
first entry in insertion order with enabled set; when no enabled entry
exists, connectToStoredNetworks returns false and the state is
unchanged (in particular it remains Idle when it was Idle). -/
theorem connect_command_contract (st : ProvState) (flashOk : Bool)
    (wifi : WlStatus) (now : Nat) :
    (st.receivedSSID ≠ "" →
      (processCommand st CMD_CONNECT flashOk wifi now).2.wifiBegin =
        [(st.receivedSSID, st.receivedPassword)]) ∧
    (st.receivedSSID = "" → st.status = PROVISION_IDLE →
      firstEnabled st.networks = Option.none →
      connectToStoredNetworks st wifi now = (false, st, Effects.none) ∧
      processCommand st CMD_CONNECT flashOk wifi now = (st, Effects.none)) ∧
    (st.receivedSSID = "" → st.status = PROVISION_IDLE →
      ∀ n : WiFiNetworkConfig, firstEnabled st.networks = some n → n.ssid ≠ "" →
      (processCommand st CMD_CONNECT flashOk wifi now).2.wifiBegin =
        [(n.ssid, n.password)] ∧
      (processCommand st CMD_CONNECT flashOk wifi now).1.status =
        PROVISION_CONNECTING) := by
  refine ⟨?_, ?_, ?_⟩
  · intro h
    simp only [processCommand, CMD_CONNECT, CMD_SAVE_NETWORK]
    norm_num
    simp [h, (connectToNetwork_run st st.receivedSSID st.receivedPassword wifi now h).2]
  · intro hssid hidle hnone
    have hstored : connectToStoredNetworks st wifi now = (false, st, Effects.none) := by
      by_cases hlen : st.networks.length = 0 <;>
        simp [connectToStoredNetworks, hidle, hlen, hnone]
    refine ⟨hstored, ?_⟩
    simp only [processCommand, CMD_CONNECT, CMD_SAVE_NETWORK]
    norm_num
    simp [hssid, hstored]
  · intro hssid hidle n hfe hne
    have hlen : st.networks.length ≠ 0 := firstEnabled_ne_nil st.networks n hfe
    have hrun := connectToNetwork_run st n.ssid n.password wifi now hne
    have hstored : connectToStoredNetworks st wifi now =
        (decide ((connectToNetwork st n.ssid n.password wifi now).1.status =
          PROVISION_CONNECTING),
         (connectToNetwork st n.ssid n.password wifi now).1,
         (connectToNetwork st n.ssid n.password wifi now).2) := by
      simp [connectToStoredNetworks, hidle, hlen, hfe]
    simp only [processCommand, CMD_CONNECT, CMD_SAVE_NETWORK]
    norm_num
    simp [hssid, hstored, hrun.1, hrun.2]

/-- C2 witness: with no staged name and a store whose first enabled
entry is the second one, the Connect command attempts exactly that
entry; with an empty store the stored-connect operation fails and the
state stays Idle; with a staged name the staged pair is attempted. -/
theorem connect_command_contract_witness :
    ((processCommand
        { idleStateEx with
          networks := [⟨"Off", "p0", false⟩, ⟨"Home", "secret123", true⟩] }
        CMD_CONNECT true WL_IDLE_STATUS 5).2.wifiBegin = [("Home", "secret123")]) ∧
    (connectToStoredNetworks idleStateEx WL_IDLE_STATUS 5 =
      (false, idleStateEx, Effects.none)) ∧
    ((processCommand stagedStateEx CMD_CONNECT true WL_IDLE_STATUS 5).2.wifiBegin =
      [("Home", "secret123")]) := by
  have h1 := (connect_command_contract
    { idleStateEx with
      networks := [⟨"Off", "p0", false⟩, ⟨"Home", "secret123", true⟩] }
    true WL_IDLE_STATUS 5).2.2 (by decide) (by decide)
    ⟨"Home", "secret123", true⟩ (by decide) (by decide)
  have h2 := (connect_command_contract idleStateEx true WL_IDLE_STATUS 5).2.1
    (by decide) (by decide) (by decide)
  have h3 := (connect_command_contract stagedStateEx true WL_IDLE_STATUS 5).1 (by decide)
  exact ⟨h1.1, h2.1, by simpa using h3⟩

/-- C3 counterexample: at an elapsed time of exactly
WIFI_CONNECT_TIMEOUT_MS (the deadline is reached, 15000 ms have
passed) with the interface reporting neither a connected nor a failed
status, the tick leaves the state at PROVISION_CONNECTING and issues
no disconnect, because the source compares with strict greater-than. -/
theorem loop_timeout_at_deadline_not_failed :
    elapsedMs 15000 connectingStateEx.connectionStartTime = WIFI_CONNECT_TIMEOUT_MS ∧
    (loopTick connectingStateEx WL_IDLE_STATUS WL_IDLE_STATUS
      WL_IDLE_STATUS 15000).1.status = PROVISION_CONNECTING ∧
    (loopTick connectingStateEx WL_IDLE_STATUS WL_IDLE_STATUS
      WL_IDLE_STATUS 15000).2.2.2.wifiDisconnects = 0 := by
  decide

/-- C3 amended: a tick in the Connecting state whose elapsed time
strictly exceeds the 15-second timeout, with the interface reporting
neither a connected nor a failed status, transitions the state to
PROVISION_FAILED and issues exactly one WiFi disconnect request. -/
theorem loop_timeout_strict_transition (st : ProvState)
    (lastR intL wifi : WlStatus) (now : Nat)
    (hconn : st.status = PROVISION_CONNECTING)
    (hw1 : wifi ≠ WL_CONNECTED) (hw2 : wifi ≠ WL_CONNECT_FAILED)
    (hw3 : wifi ≠ WL_NO_SSID_AVAIL)
    (ht : WIFI_CONNECT_TIMEOUT_MS < elapsedMs now st.connectionStartTime) :
    (loopTick st lastR intL wifi now).1.status = PROVISION_FAILED ∧
    (loopTick st lastR intL wifi now).2.2.2.wifiDisconnects = 1 := by
  by_cases hl : wifi = lastR
  · subst hl
    by_cases hi : wifi = intL
    · subst hi
      simp [loopTick, setStatus, Effects.seq, Effects.none, hconn, hw1, hw2, hw3, ht]
    · simp [loopTick, setStatus, Effects.seq, Effects.none, hconn, hw1, hw2, hw3, ht, hi]
  · by_cases hi : wifi = intL
    · subst hi
      simp [loopTick, setStatus, Effects.seq, Effects.none, hconn, hw1, hw2, hw3, ht, hl]
    · simp [loopTick, setStatus, Effects.seq, Effects.none, hconn, hw1, hw2, hw3, ht, hl, hi]

/-- C3 amended witness: one millisecond past the deadline the state
becomes Failed and one disconnect request is issued. -/
theorem loop_timeout_strict_transition_witness :
    ((loopTick connectingStateEx WL_IDLE_STATUS WL_IDLE_STATUS
        WL_IDLE_STATUS 15001).1.status = PROVISION_FAILED) ∧
    ((loopTick connectingStateEx WL_IDLE_STATUS WL_IDLE_STATUS
        WL_IDLE_STATUS 15001).2.2.2.wifiDisconnects = 1) := by
  exact loop_timeout_strict_transition connectingStateEx WL_IDLE_STATUS WL_IDLE_STATUS
    WL_IDLE_STATUS 15001 (by decide) (by decide) (by decide) (by decide) (by decide)

/-- C8: loading from durable storage with a missing artifact, an
unreadable artifact, an artifact above the 2048-byte sanity limit, or
an unparseable artifact reports failure and leaves the in-memory list
exactly as it was, hence empty at the only call site (begin calls the
load on the freshly zeroed store); no partial list is ever produced in
these cases. -/
theorem loadNetworksFromFlash_failure_empty (file : FlashFile)
    (h : file = FlashFile.absent ∨ file = FlashFile.unreadable ∨
         (∃ size parsed, file = FlashFile.content size parsed ∧ 2048 < size) ∨
         (∃ size, file = FlashFile.content size Option.none)) :
    loadNetworksFromFlash [] file = (false, []) ∧
    ∀ prev, loadNetworksFromFlash prev file = (false, prev) := by
  have key : ∀ prev, loadNetworksFromFlash prev file = (false, prev) := by
    intro prev
    rcases h with h | h | ⟨size, parsed, h, hs⟩ | ⟨size, h⟩ <;> subst h
    · rfl
    · rfl
    · simp [loadNetworksFromFlash, hs]
    · by_cases hs : 2048 < size <;> simp [loadNetworksFromFlash, hs]
  exact ⟨key [], key⟩

/-- C8 witness: a missing file, a 4096-byte file and an unparseable
file each load as failure with an empty list. -/
theorem loadNetworksFromFlash_failure_empty_witness :
    (loadNetworksFromFlash [] FlashFile.absent = (false, [])) ∧
    (loadNetworksFromFlash [] (FlashFile.content 4096 (some [])) = (false, [])) ∧
    (loadNetworksFromFlash [] (FlashFile.content 10 Option.none) = (false, [])) := by
  exact ⟨(loadNetworksFromFlash_failure_empty FlashFile.absent (Or.inl rfl)).1,
    (loadNetworksFromFlash_failure_empty (FlashFile.content 4096 (some []))
      (Or.inr (Or.inr (Or.inl ⟨4096, some [], rfl, by decide⟩)))).1,
    (loadNetworksFromFlash_failure_empty (FlashFile.content 10 Option.none)
      (Or.inr (Or.inr (Or.inr ⟨10, rfl⟩)))).1⟩

/-- C9: a write to the network-name attribute longer than
MAX_SSID_LENGTH (32) bytes is truncated, never rejected -- the stored
buffer holds exactly the first 32 payload bytes followed by a NUL and
the handler returns 0; likewise the passphrase attribute truncates at
MAX_PASSWORD_LENGTH (64) bytes; and a write to the command attribute
with an empty payload is ignored: no error, no state change, no
request. -/
theorem handleGattWrite_truncation_and_ignore (h : CharHandles) (st : ProvState)
    (flashOk pairingComplete encrypted : Bool) (wifi : WlStatus) (now : Nat)
    (buf : List Nat) :
    (MAX_SSID_LENGTH < buf.length →
      ssidBufAfterWrite buf = buf.take MAX_SSID_LENGTH ++ [0] ∧
      handleGattWrite h st flashOk pairingComplete encrypted wifi now h.ssidH buf =
        ({ st with receivedSSID := bufToCStr (ssidBufAfterWrite buf) },
         Effects.none, 0)) ∧
    (MAX_PASSWORD_LENGTH < buf.length → h.passwordH ≠ h.ssidH →
      passwordBufAfterWrite buf = buf.take MAX_PASSWORD_LENGTH ++ [0] ∧
      handleGattWrite h st flashOk pairingComplete encrypted wifi now h.passwordH buf =
        ({ st with receivedPassword := bufToCStr (passwordBufAfterWrite buf) },
         Effects.none, 0)) ∧
    (h.commandH ≠ h.ssidH → h.commandH ≠ h.passwordH →
      handleGattWrite h st flashOk pairingComplete encrypted wifi now h.commandH [] =
        (st, Effects.none, 0)) := by
  refine ⟨?_, ?_, ?_⟩
  · intro hs
    have hne2 : buf.length ≠ 2 := by
      simp only [MAX_SSID_LENGTH] at hs
      omega
    have hmin : min buf.length MAX_SSID_LENGTH = MAX_SSID_LENGTH :=
      min_eq_right (Nat.le_of_lt hs)
    refine ⟨by simp [ssidBufAfterWrite, hmin], ?_⟩
    simp [handleGattWrite, hne2, Effects.seq, Effects.none]
  · intro hs hps
    have hne2 : buf.length ≠ 2 := by
      simp only [MAX_PASSWORD_LENGTH] at hs
      omega
    have hmin : min buf.length MAX_PASSWORD_LENGTH = MAX_PASSWORD_LENGTH :=
      min_eq_right (Nat.le_of_lt hs)
    refine ⟨by simp [passwordBufAfterWrite, hmin], ?_⟩
    simp [handleGattWrite, hne2, hps, Effects.seq, Effects.none]
  · intro hcs hcp
    simp [handleGattWrite, hcs, hcp, Effects.seq, Effects.none]

/-- A sample assignment of the four characteristic value handles. -/
def handlesEx : CharHandles := ⟨10, 11, 12, 13⟩

/-- C9 witness: a 40-byte name write stores the first 32 bytes
NUL-terminated and returns 0, a 70-byte passphrase write stores the
first 64 bytes, and an empty command write changes nothing. -/
theorem handleGattWrite_truncation_and_ignore_witness :
    (ssidBufAfterWrite (List.replicate 40 65) =
      (List.replicate 40 65).take MAX_SSID_LENGTH ++ [0]) ∧
    ((handleGattWrite handlesEx idleStateEx true false false
        WL_IDLE_STATUS 0 handlesEx.ssidH (List.replicate 40 65)).2.2 = 0) ∧
    (passwordBufAfterWrite (List.replicate 70 66) =
      (List.replicate 70 66).take MAX_PASSWORD_LENGTH ++ [0]) ∧
    (handleGattWrite handlesEx idleStateEx true false false
        WL_IDLE_STATUS 0 handlesEx.commandH [] = (idleStateEx, Effects.none, 0)) := by
  have h1 := (handleGattWrite_truncation_and_ignore handlesEx idleStateEx
    true false false WL_IDLE_STATUS 0 (List.replicate 40 65)).1 (by decide)
  have h2 := (handleGattWrite_truncation_and_ignore handlesEx idleStateEx
    true false false WL_IDLE_STATUS 0 (List.replicate 70 66)).2.1 (by decide) (by decide)
  have h3 := (handleGattWrite_truncation_and_ignore handlesEx idleStateEx
    true false false WL_IDLE_STATUS 0 []).2.2 (by decide) (by decide)
  exact ⟨h1.1, by rw [h1.2], h2.1, h3⟩

/-- C10: for reads of the network-name and pairing-status attributes,
a NULL destination is a pure length query (the value's byte length is
returned and nothing is written), a non-NULL destination smaller than
the value yields 0 with nothing written and the state unchanged, and a
read of any other characteristic identifier yields 0 (not handled). -/
theorem handleGattRead_contract (h : CharHandles) (st : ProvState)
    (pairingComplete encrypted : Bool) (cid : Nat) (bufSize : Nat) :
    (handleGattRead h st pairingComplete encrypted h.ssidH false bufSize =
      (st, st.receivedSSID.length, [])) ∧
    (h.pairingStatusH ≠ h.ssidH →
      handleGattRead h st pairingComplete encrypted h.pairingStatusH false bufSize =
        (st, 1, [])) ∧
    (bufSize < st.receivedSSID.length →
      handleGattRead h st pairingComplete encrypted h.ssidH true bufSize =
        (st, 0, [])) ∧
    (h.pairingStatusH ≠ h.ssidH → bufSize < 1 →
      handleGattRead h st pairingComplete encrypted h.pairingStatusH true bufSize =
        (st, 0, [])) ∧
    (cid ≠ h.ssidH → cid ≠ h.pairingStatusH →
      handleGattRead h st pairingComplete encrypted cid true bufSize =
        (st, 0, [])) := by
  refine ⟨by simp [handleGattRead], ?_, ?_, ?_, ?_⟩
  · intro hps
    simp [handleGattRead, hps]
  · intro hsz
    simp [handleGattRead, hsz]
  · intro hps hsz
    simp [handleGattRead, hps, hsz]
  · intro h1 h2
    simp [handleGattRead, h1, h2]

/-- C10 witness: with the four-character staged name, a NULL read
returns 4, a 3-byte destination is refused with 0, a NULL
pairing-status read returns 1, and an unknown handle is not handled. -/
theorem handleGattRead_contract_witness :
    (handleGattRead handlesEx stagedStateEx false false handlesEx.ssidH false 0 =
      (stagedStateEx, stagedStateEx.receivedSSID.length, [])) ∧
    (handleGattRead handlesEx stagedStateEx false false handlesEx.ssidH true 3 =
      (stagedStateEx, 0, [])) ∧
    (handleGattRead handlesEx stagedStateEx false false handlesEx.pairingStatusH false 0 =
      (stagedStateEx, 1, [])) ∧
    (handleGattRead handlesEx stagedStateEx false false 77 true 9 =
      (stagedStateEx, 0, [])) := by
  have hc := handleGattRead_contract handlesEx stagedStateEx false false 77 0
  have hc3 := handleGattRead_contract handlesEx stagedStateEx false false 77 3
  have hc9 := handleGattRead_contract handlesEx stagedStateEx false false 77 9
  exact ⟨hc.1, hc3.2.2.1 (by decide),
    hc.2.1 (by decide), hc9.2.2.2.2 (by decide) (by decide)⟩

end PicoProv
